import Mathlib

/-!
Shallow embedding of the database-operations layer of the AdventureAI backend
(file Backend/app/api/v1/database/operations.py) together with proofs about
the claims of its specification.

Conventions of the embedding:
* The relational store is an explicit record of table rows (lists); every
  operation is a pure function that threads the store state.  An operation
  that can raise returns an Except value paired with the state that is
  durable when the operation returns or raises (the Python layer commits
  eagerly inside the operations, so state changes made before a raise
  persist).
* The public source excerpt abbreviates every model and column reference to
  Table and Table.column; the concrete tables and key columns are resolved
  from the data model of the specification (users, email_tokens,
  access_tokens, game_sessions, starting_stories) and from the surrounding
  field names in the code.
* scalar_one_or_none is modelled as first-match lookup (List.find?); the
  queried columns are unique keys in every modelled state.
* Python untyped failures (AttributeError on None, TypeError on None + list)
  and HTTPException are distinguished in the error type.
-/

namespace AdventureAI

/-- Modelled from the spec: a User row (data model, section 3); the models
module of the repository is not part of the excerpt.  UUIDs are modelled as
naturals. -/
structure UserRow where
  id : Nat
  email : String
  password : String
  is_active : Bool
  first_name : Option String
  last_name : Option String
deriving DecidableEq

/-- Modelled from the spec: an EmailToken row — email, password hash, random
token string, creation timestamp. -/
structure EmailTokenRow where
  email : String
  password : String
  token : String
  created_at : Nat
deriving DecidableEq

/-- Modelled from the spec: an AccessToken row — token string, expiry, owning
user.  The code stores the placeholder string literal as expires_at. -/
structure AccessTokenRow where
  token : String
  expires_at : String
  user_id : Nat
deriving DecidableEq

/-- Modelled from the spec: a GameSession row — id, owning user, protagonist
name, session name, inventory payload (opaque, modelled as a string), ordered
scene list (stories column), last image reference. -/
structure GameSessionRow where
  id : Nat
  user_id : Nat
  protagonist_name : String
  session_name : String
  inventory : String
  stories : List String
  last_image : String
deriving DecidableEq

/-- Modelled from the spec: a starting-story row, with possibly absent
narrative text and image columns. -/
structure StoryRow where
  id : String
  story : Option String
  image : Option String
deriving DecidableEq

/-- The relational store: one list of rows per table of the data model. -/
structure DB where
  users : List UserRow
  email_tokens : List EmailTokenRow
  access_tokens : List AccessTokenRow
  game_sessions : List GameSessionRow
  starting_stories : List StoryRow
deriving DecidableEq

/-- Failure outcomes: typed HTTPException(status, detail) versus the untyped
Python runtime errors reachable in the code (attribute access on None,
adding None to a list) and the database driver integrity error. -/
inductive Err where
  | http (status : Nat) (detail : String)
  | attributeError (msg : String)
  | typeError (msg : String)
  | integrityError
deriving DecidableEq

/-- Equality of operation results is decidable, so concrete runs can be
checked by evaluation. -/
instance decEqExcept {ε α : Type} [DecidableEq ε] [DecidableEq α] :
    DecidableEq (Except ε α) := fun a b =>
  match a, b with
  | Except.ok x, Except.ok y =>
      if h : x = y then isTrue (by rw [h]) else isFalse (fun hc => h (Except.ok.inj hc))
  | Except.error x, Except.error y =>
      if h : x = y then isTrue (by rw [h]) else isFalse (fun hc => h (Except.error.inj hc))
  | Except.ok _, Except.error _ => isFalse (fun hc => Except.noConfusion hc)
  | Except.error _, Except.ok _ => isFalse (fun hc => Except.noConfusion hc)

/-- Modelled from the spec: the Hasher collaborator, hash(plaintext) ->
opaque_hash (section 6); the public source stubs _hash_password, so an
injective encoding stands in for bcrypt. -/
def hash_password (p : String) : String :=
  "hash:" ++ p

/-- Modelled from the spec: the Hasher collaborator verify(plaintext, hash);
true exactly when the hash is the hash of the plaintext. -/
def checkpw (p h : String) : Bool :=
  hash_password p == h

/-
SESSION STORE MANAGER
-/

/-- Modelled from the spec: the game-session payload of the SaveGame schema
(schemas module absent from the excerpt): optional existing id, protagonist
name, session name, inventory, scene list. -/
structure GameSessionPayload where
  id : Option Nat
  protagonist_name : String
  session_name : String
  inventory : String
  scenes : List String
deriving DecidableEq

/-- Modelled from the spec: the SaveGame request schema — image reference
plus the game-session payload. -/
structure SaveGame where
  image : String
  game_session : GameSessionPayload
deriving DecidableEq

/-- Embeds save_game_route (operations.py lines 570-621).  A request without
an id inserts a new row (the store-generated id is the new_id parameter); a
request with an id reads the stories column for that id, computes old_scenes
+ new scenes, and updates last_image, session_name, inventory and stories of
that row.  When the lookup returns no row, old_scenes is None and the Python
expression old_scenes + scenes raises an untyped TypeError. -/
def save_game_route (db : DB) (data : SaveGame) (user_id : Nat) (new_id : Nat) :
    Except Err Nat × DB :=
  match data.game_session.id with
  | none =>
      let row : GameSessionRow :=
        { id := new_id
          user_id := user_id
          protagonist_name := data.game_session.protagonist_name
          session_name := data.game_session.session_name
          inventory := data.game_session.inventory
          stories := data.game_session.scenes
          last_image := data.image }
      (Except.ok new_id, { db with game_sessions := db.game_sessions ++ [row] })
  | some sid =>
      match db.game_sessions.find? (fun s => s.id == sid) with
      | none =>
          (Except.error (Err.typeError "unsupported operand type for +: NoneType and list"), db)
      | some old =>
          let updated_scenes := old.stories ++ data.game_session.scenes
          let db1 : DB :=
            { db with
                game_sessions := db.game_sessions.map (fun s =>
                  if s.id == sid then
                    { s with
                        last_image := data.image
                        session_name := data.game_session.session_name
                        inventory := data.game_session.inventory
                        stories := updated_scenes }
                  else s) }
          (Except.ok sid, db1)

/-
IDENTITY LIFECYCLE MANAGER
-/

/-- Modelled from the spec: the UserLogin schema — email and plaintext
password (the schemas module is absent from the excerpt). -/
structure UserLogin where
  email : String
  password : String
deriving DecidableEq

/-- Modelled from the spec: the UserCreate registration schema — email and
plaintext password. -/
structure UserCreate where
  email : String
  password : String
deriving DecidableEq

/-- Modelled from the spec: the sparse UserUpdate schema — every field
optional, absent fields are not applied. -/
structure UserUpdate where
  email : Option String
  password : Option String
  first_name : Option String
  last_name : Option String
deriving DecidableEq

/-- Embeds logout_user: delete every AccessToken row of the user and commit;
deleting zero rows is not an error. -/
def logout_user (db : DB) (user_id : Nat) : DB :=
  { db with access_tokens := db.access_tokens.filter (fun t => !(t.user_id == user_id)) }

/-- Embeds _create_access_token: the logout_user call deletes all previous
tokens of the user and commits that deletion, then the new row with the
generated token string and the placeholder expiry literal is inserted and
committed.  Modelled from the spec: the TokenGenerator collaborator is
withheld by the public source (generate_token is a stub), so the generated
string is the tok parameter. -/
def create_access_token (db : DB) (user_id : Nat) (tok : String) : String × DB :=
  let db1 := logout_user db user_id
  (tok, { db1 with access_tokens := db1.access_tokens ++ [⟨tok, "some unknown timestamp", user_id⟩] })

/-- The states committed by _create_access_token, in commit order: first the
state after logout_user (which contains its own commit of the deletion),
second the state after the insertion of the new token row. -/
def create_access_token_commits (db : DB) (user_id : Nat) (tok : String) : List DB :=
  [logout_user db user_id, (create_access_token db user_id tok).2]

/-- Embeds validate_token: look up the AccessToken row by token string,
Unauthorized when absent, else the owning user id.  Read-only. -/
def validate_token (db : DB) (token : String) : Except Err Nat :=
  match db.access_tokens.find? (fun t => t.token == token) with
  | none => Except.error (Err.http 401 "Invalid token")
  | some t => Except.ok t.user_id

/-- The update of the is_active column of the matching user row, as executed
by activate_user and deactivate_user. -/
def set_active (db : DB) (user_id : Nat) (b : Bool) : DB :=
  { db with users := db.users.map (fun u => if u.id == user_id then { u with is_active := b } else u) }

/-- Embeds activate_user: update the is_active flag returning the row; when
no row matches, the code logs at critical severity, removes all tokens of
the id and raises NotFound. -/
def activate_user (db : DB) (user_id : Nat) : Except Err Unit × DB :=
  if db.users.any (fun u => u.id == user_id) then
    (Except.ok (), set_active db user_id true)
  else
    (Except.error (Err.http 404 "User not found"), logout_user db user_id)

/-- Embeds login_user: look up the user by email (NotFound when absent),
verify the password with the Hasher (Unauthorized on mismatch), re-activate
an inactive user, then issue a new access token.  tok is the generated token
string (TokenGenerator collaborator, modelled from the spec). -/
def login_user (db : DB) (user : UserLogin) (tok : String) : Except Err String × DB :=
  match db.users.find? (fun u => u.email == user.email) with
  | none => (Except.error (Err.http 404 "User not found"), db)
  | some db_user =>
      if !(checkpw user.password db_user.password) then
        (Except.error (Err.http 401 "Invalid credentials"), db)
      else
        match (if db_user.is_active = false then activate_user db db_user.id else (Except.ok (), db)) with
        | (Except.error e, db1) => (Except.error e, db1)
        | (Except.ok _, db1) =>
            let p := create_access_token db1 db_user.id tok
            (Except.ok p.1, p.2)

/-- The sparse update applied to a user row: only non-absent fields of the
update are written, and a present password is hashed first. -/
def apply_user_update (u : UserRow) (nud : UserUpdate) : UserRow :=
  { u with
      email := nud.email.getD u.email
      password := (nud.password.map hash_password).getD u.password
      first_name := nud.first_name.or u.first_name
      last_name := nud.last_name.or u.last_name }

/-- Embeds update_user: update the matching row with the non-absent fields
returning the row; when no row matches, the code logs at critical severity,
purges all tokens of the id by logout_user and raises NotFound. -/
def update_user (db : DB) (user_id : Nat) (user : UserUpdate) : Except Err UserRow × DB :=
  match db.users.find? (fun u => u.id == user_id) with
  | some u =>
      (Except.ok (apply_user_update u user),
       { db with users := db.users.map (fun r => if r.id == user_id then apply_user_update r user else r) })
  | none =>
      (Except.error (Err.http 404 "User not found"), logout_user db user_id)

/-- Embeds _delete_email_tokens: delete every EmailToken row of the email
and commit. -/
def delete_email_tokens (db : DB) (email : String) : DB :=
  { db with email_tokens := db.email_tokens.filter (fun t => !(t.email == email)) }

/-- Embeds hard_delete_user: look up the user by id — the email attribute of
the result is read without a presence check, so a missing row raises the
untyped AttributeError.  Otherwise log out the user, delete the User row,
and when the delete affected at least one row commit and delete the
EmailTokens of the email; the NotFound branch guards a zero rowcount. -/
def hard_delete_user (db : DB) (user_id : Nat) : Except Err String × DB :=
  match db.users.find? (fun u => u.id == user_id) with
  | none =>
      (Except.error (Err.attributeError "NoneType object has no attribute email"), db)
  | some user =>
      let db1 := logout_user db user_id
      let remaining := db1.users.filter (fun u => !(u.id == user_id))
      if db1.users.length - remaining.length == 0 then
        (Except.error (Err.http 404 "User not found"), db1)
      else
        let db2 := delete_email_tokens { db1 with users := remaining } user.email
        (Except.ok "User deleted successfully", db2)

/-
TOKEN MANAGER
-/

/-- A character the local part of the email regex accepts. -/
def isLocalChar (c : Char) : Bool :=
  c.isAlphanum || c == '.' || c == '_' || c == '%' || c == '+' || c == '-'

/-- A character the domain part of the email regex accepts. -/
def isDomainChar (c : Char) : Bool :=
  c.isAlphanum || c == '.' || c == '-'

/-- Split of a character list at every occurrence of the separator; always
returns at least one segment. -/
def splitChar (sep : Char) : List Char → List (List Char)
  | [] => [[]]
  | c :: cs =>
      match splitChar sep cs with
      | [] => [[c]]
      | p :: ps => if c == sep then [] :: p :: ps else (c :: p) :: ps

/-- Embeds _validate_email: the anchored regex of the source demands a
nonempty local part of [a-zA-Z0-9._%+-], one at-sign, a nonempty domain of
[a-zA-Z0-9.-], a final dot, and a top-level label of at least two letters.
The final segment after the last dot is the top-level label, since that
label itself admits no dot; the dollar anchor of the Python regex also
accepts one trailing newline. -/
def validate_email (email : String) : Bool :=
  let cs :=
    match email.toList.reverse with
    | '\n' :: rest => rest.reverse
    | _ => email.toList
  match splitChar '@' cs with
  | [loc, rest] =>
      !loc.isEmpty && loc.all isLocalChar &&
      (match (splitChar '.' rest).reverse with
       | tld :: revDomain =>
          !revDomain.isEmpty &&
          decide (2 ≤ tld.length) && tld.all Char.isAlpha &&
          revDomain.all (fun p => p.all isDomainChar) &&
          (decide (2 ≤ revDomain.length) || !(revDomain.headD []).isEmpty)
       | [] => false)
  | _ => false

/-- Embeds _check_existing_user: whether a User row with the email exists. -/
def check_existing_user (db : DB) (email : String) : Bool :=
  (db.users.find? (fun u => u.email == email)).isSome

/-- Modelled from the spec: the store raises a uniqueness violation when the
inserted EmailToken collides on the random token string (section 4.1
describes the duplicate-token-string collision); the constraint itself lives
in the models module, which is absent from the excerpt. -/
def email_token_collision (db : DB) (tok : String) : Bool :=
  db.email_tokens.any (fun t => t.token == tok)

/-- Embeds _post_email_token: hash the password, generate a token, insert
the EmailToken row and commit; the driver integrity error propagates on a
token collision and the uncommitted insert is discarded.  tok is the
generated token (TokenGenerator collaborator), now the creation
timestamp. -/
def post_email_token (db : DB) (user : UserCreate) (tok : String) (now : Nat) :
    Except Err (String × DB) :=
  if email_token_collision db tok then
    Except.error Err.integrityError
  else
    Except.ok (tok, { db with email_tokens :=
      db.email_tokens ++ [⟨user.email, hash_password user.password, tok, now⟩] })

/-- Embeds create_email_token: reject a malformed email with InvalidInput
and an already registered email with AlreadyExists, then insert the
EmailToken; on an integrity error the code rolls back, deletes all
EmailTokens of the email and retries exactly once (a second failure
propagates).  tok1 and tok2 are the token strings the two generate_token
calls produce. -/
def create_email_token (db : DB) (user : UserCreate) (tok1 tok2 : String) (now : Nat) :
    Except Err String × DB :=
  if !(validate_email user.email) then
    (Except.error (Err.http 400 "Invalid email format"), db)
  else if check_existing_user db user.email then
    (Except.error (Err.http 400 "User with this email already exists"), db)
  else
    match post_email_token db user tok1 now with
    | Except.ok (t, db1) => (Except.ok t, db1)
    | Except.error _ =>
        let db1 := delete_email_tokens db user.email
        match post_email_token db1 user tok2 now with
        | Except.ok (t, db2) => (Except.ok t, db2)
        | Except.error e => (Except.error e, db1)

/-- Embeds _validate_email_token: look up the EmailToken by token string,
NotFound when absent.  The expiry test of the source is the bare string
literal "The token timestamp is too old", which Python evaluates as a truthy
condition, so every found token takes the expiry branch: the EmailTokens of
the email are deleted (and this deletion commits) and Expired is raised; the
success return of the row is dead code. -/
def validate_email_token (db : DB) (token : String) : Except Err EmailTokenRow × DB :=
  match db.email_tokens.find? (fun t => t.token == token) with
  | none => (Except.error (Err.http 404 "Token not found"), db)
  | some row =>
      if ("The token timestamp is too old" : String).length != 0 then
        (Except.error (Err.http 401 "Token expired"), delete_email_tokens db row.email)
      else
        (Except.ok row, db)

/-- The bounded retry loop of create_user: each attempt draws a fresh id
(uuid.uuid4, modelled as the list of drawn candidates), and an id collision
with an existing User row retries; exhausting the attempts raises the 500
InternalError of the source.  The new row carries the email and password
hash stored in the email token. -/
def insert_user_attempts (db : DB) (uuids : List Nat) (email pw : String) :
    Except Err (Nat × DB) :=
  match uuids with
  | [] => Except.error (Err.http 500 "User creation failed when posting to database.")
  | u :: rest =>
      if db.users.any (fun r => r.id == u) then
        insert_user_attempts db rest email pw
      else
        Except.ok (u, { db with users := db.users ++ [⟨u, email, pw, true, none, none⟩] })

/-- Embeds create_user: validate the email token (which, in the source as it
stands, raises for every request — Expired when the token is found and
NotFound otherwise), then insert the new User retrying up to 3 times on id
collision, then issue an access token for the new user.  uuids are the drawn
id candidates, atok the generated access-token string. -/
def create_user (db : DB) (token : String) (uuids : List Nat) (atok : String) :
    Except Err String × DB :=
  match validate_email_token db token with
  | (Except.error e, db1) => (Except.error e, db1)
  | (Except.ok row, db1) =>
      match insert_user_attempts db1 (uuids.take 3) row.email row.password with
      | Except.error e => (Except.error e, db1)
      | Except.ok (uid, db2) =>
          let p := create_access_token db2 uid atok
          (Except.ok p.1, p.2)

/-- The response record of get_start_story. -/
structure StoryResponse where
  image : String
  story : String
  id : String
deriving DecidableEq

/-- Embeds get_start_story: look up the starting-story row by id; the story
and image columns of the result are read before any presence check of the
row itself, so an absent row raises the untyped AttributeError; a present
row yields NotFound exactly when its story or image column is NULL, and the
response record otherwise.  The operation performs no write: the state is
returned unchanged on every path. -/
def get_start_story (db : DB) (story_id : String) : Except Err StoryResponse × DB :=
  match db.starting_stories.find? (fun r => r.id == story_id) with
  | none => (Except.error (Err.attributeError "NoneType object has no attribute story"), db)
  | some row =>
      match row.story, row.image with
      | some s, some i => (Except.ok ⟨i, s, row.id⟩, db)
      | _, _ =>
          (Except.error (Err.http 404 ("Story with ID " ++ story_id ++ " not found")), db)

/-- The single-active-session invariant: at most one live AccessToken row
for the user. -/
def at_most_one_token (db : DB) (uid : Nat) : Prop :=
  (db.access_tokens.filter (fun t => t.user_id == uid)).length ≤ 1

/-- Finding under a map that leaves the predicate invariant commutes with the
map. -/
theorem find?_map_of_pres {α : Type} (l : List α) (p : α → Bool) (f : α → α)
    (h : ∀ a, p (f a) = p a) :
    (l.map f).find? p = (l.find? p).map f := by
  induction l with
  | nil => rfl
  | cons a l ih =>
      simp only [List.map_cons, List.find?, h a]
      cases hp : p a
      · simpa using ih
      · rfl

/-- Updating the fields of the row whose id matches, as save_game_route does,
changes the result of the lookup by that id to the updated row. -/
theorem find?_after_save (l : List GameSessionRow) (sid : Nat) (r : GameSessionRow)
    (img sname inv : String) (sts : List String)
    (hr : l.find? (fun s => s.id == sid) = some r) :
    (l.map (fun s => if s.id == sid then
        { s with last_image := img, session_name := sname, inventory := inv, stories := sts }
      else s)).find? (fun s => s.id == sid)
      = some { r with last_image := img, session_name := sname, inventory := inv, stories := sts } := by
  rw [find?_map_of_pres]
  · rw [hr, Option.map_some']
    have hp := List.find?_some hr
    rw [if_pos hp]
  · intro a
    by_cases h : a.id == sid
    · rw [if_pos h]
    · rw [if_neg h]

/-- Unfolding of save_game_route on the existing-id branch when the row is
present. -/
theorem save_with_id_step (db : DB) (sid uid nid : Nat) (r : GameSessionRow) (d : SaveGame)
    (hid : d.game_session.id = some sid)
    (hr : db.game_sessions.find? (fun s => s.id == sid) = some r) :
    save_game_route db d uid nid =
      (Except.ok sid,
       { db with game_sessions := db.game_sessions.map (fun s =>
           if s.id == sid then
             { s with
                 last_image := d.image
                 session_name := d.game_session.session_name
                 inventory := d.game_session.inventory
                 stories := r.stories ++ d.game_session.scenes }
           else s) }) := by
  simp only [save_game_route, hid, hr]

/-- C1: a save request carrying an existing session id concatenates the
stored scene sequence with the new scenes in that order (existing first, no
reordering, no de-duplication, no loss), updates the inventory, session
name, last image and scene sequence of the row in place, and returns the
same session id; after a second save with the same id the final scene
sequence is the sequence before that save (stored scenes plus first save)
appended with the second save request scenes. -/
theorem save_with_id_appends_scenes
    (db : DB) (sid uid nid1 nid2 : Nat) (r : GameSessionRow) (d1 d2 : SaveGame)
    (h1 : d1.game_session.id = some sid) (h2 : d2.game_session.id = some sid)
    (hr : db.game_sessions.find? (fun s => s.id == sid) = some r) :
    (save_game_route db d1 uid nid1).1 = Except.ok sid ∧
    (save_game_route db d1 uid nid1).2.game_sessions.find? (fun s => s.id == sid)
      = some { r with
                 last_image := d1.image
                 session_name := d1.game_session.session_name
                 inventory := d1.game_session.inventory
                 stories := r.stories ++ d1.game_session.scenes } ∧
    (save_game_route (save_game_route db d1 uid nid1).2 d2 uid nid2).1 = Except.ok sid ∧
    (save_game_route (save_game_route db d1 uid nid1).2 d2 uid nid2).2.game_sessions.find?
        (fun s => s.id == sid)
      = some { r with
                 last_image := d2.image
                 session_name := d2.game_session.session_name
                 inventory := d2.game_session.inventory
                 stories := (r.stories ++ d1.game_session.scenes) ++ d2.game_session.scenes } := by
  have step1 := save_with_id_step db sid uid nid1 r d1 h1 hr
  have hfind1 :
      (save_game_route db d1 uid nid1).2.game_sessions.find? (fun s => s.id == sid)
        = some { r with
                   last_image := d1.image
                   session_name := d1.game_session.session_name
                   inventory := d1.game_session.inventory
                   stories := r.stories ++ d1.game_session.scenes } := by
    rw [step1]
    exact find?_after_save db.game_sessions sid r _ _ _ _ hr
  refine ⟨by rw [step1], hfind1, ?_, ?_⟩
  · rw [save_with_id_step (save_game_route db d1 uid nid1).2 sid uid nid2 _ d2 h2 hfind1]
  · rw [save_with_id_step (save_game_route db d1 uid nid1).2 sid uid nid2 _ d2 h2 hfind1]
    have h3 := find?_after_save (save_game_route db d1 uid nid1).2.game_sessions sid
      { r with
          last_image := d1.image
          session_name := d1.game_session.session_name
          inventory := d1.game_session.inventory
          stories := r.stories ++ d1.game_session.scenes }
      d2.image d2.game_session.session_name d2.game_session.inventory
      ((r.stories ++ d1.game_session.scenes) ++ d2.game_session.scenes) hfind1
    exact h3

/-- Witness for the save-append theorem at a concrete store holding one
session with id 5 and stored scenes [a]. -/
theorem save_with_id_appends_scenes_witness :
    (save_game_route ⟨[], [], [], [⟨5, 1, "hero", "old", "inv0", ["a"], "img0"⟩], []⟩
        ⟨"img1", ⟨some 5, "p1", "s1", "inv1", ["b", "c"]⟩⟩ 1 9).1 = Except.ok 5 ∧
    (save_game_route ⟨[], [], [], [⟨5, 1, "hero", "old", "inv0", ["a"], "img0"⟩], []⟩
        ⟨"img1", ⟨some 5, "p1", "s1", "inv1", ["b", "c"]⟩⟩ 1 9).2.game_sessions.find?
        (fun s => s.id == 5)
      = some ⟨5, 1, "hero", "s1", "inv1", ["a", "b", "c"], "img1"⟩ ∧
    (save_game_route
        (save_game_route ⟨[], [], [], [⟨5, 1, "hero", "old", "inv0", ["a"], "img0"⟩], []⟩
          ⟨"img1", ⟨some 5, "p1", "s1", "inv1", ["b", "c"]⟩⟩ 1 9).2
        ⟨"img2", ⟨some 5, "p2", "s2", "inv2", ["d"]⟩⟩ 1 8).1 = Except.ok 5 ∧
    (save_game_route
        (save_game_route ⟨[], [], [], [⟨5, 1, "hero", "old", "inv0", ["a"], "img0"⟩], []⟩
          ⟨"img1", ⟨some 5, "p1", "s1", "inv1", ["b", "c"]⟩⟩ 1 9).2
        ⟨"img2", ⟨some 5, "p2", "s2", "inv2", ["d"]⟩⟩ 1 8).2.game_sessions.find?
        (fun s => s.id == 5)
      = some ⟨5, 1, "hero", "s2", "inv2", ["a", "b", "c", "d"], "img2"⟩ := by
  have h := save_with_id_appends_scenes
    ⟨[], [], [], [⟨5, 1, "hero", "old", "inv0", ["a"], "img0"⟩], []⟩ 5 1 9 8
    ⟨5, 1, "hero", "old", "inv0", ["a"], "img0"⟩
    ⟨"img1", ⟨some 5, "p1", "s1", "inv1", ["b", "c"]⟩⟩
    ⟨"img2", ⟨some 5, "p2", "s2", "inv2", ["d"]⟩⟩ rfl rfl (by decide)
  exact h

/-- C9: save with a non-null session id is total only when a GameSession row
with that id exists.  When the id is unknown the looked-up stories value is
None and the concatenation raises the untyped TypeError — there is no typed
NotFound (no HTTPException) outcome on that path; when the row exists the
error branch is unreachable and the save succeeds. -/
theorem save_unknown_id_untyped_error
    (db : DB) (d : SaveGame) (uid nid sid : Nat)
    (hid : d.game_session.id = some sid) :
    (db.game_sessions.find? (fun s => s.id == sid) = none →
       (save_game_route db d uid nid).1
         = Except.error (Err.typeError "unsupported operand type for +: NoneType and list") ∧
       ∀ st det, (save_game_route db d uid nid).1 ≠ Except.error (Err.http st det)) ∧
    (∀ r, db.game_sessions.find? (fun s => s.id == sid) = some r →
       (save_game_route db d uid nid).1 = Except.ok sid) := by
  constructor
  · intro hnone
    refine ⟨by simp only [save_game_route, hid, hnone], ?_⟩
    intro st det h
    exact absurd h (by simp [save_game_route, hid, hnone])
  · intro r hr
    simp only [save_game_route, hid, hr]

/-- Witness for the unknown-session-id theorem: on an empty store the save
with id 5 raises the untyped TypeError, and with the row present it
succeeds. -/
theorem save_unknown_id_untyped_error_witness :
    ((save_game_route ⟨[], [], [], [], []⟩ ⟨"i", ⟨some 5, "p", "s", "v", ["b"]⟩⟩ 1 9).1
       = Except.error (Err.typeError "unsupported operand type for +: NoneType and list") ∧
     ∀ st det, (save_game_route ⟨[], [], [], [], []⟩ ⟨"i", ⟨some 5, "p", "s", "v", ["b"]⟩⟩ 1 9).1
       ≠ Except.error (Err.http st det)) ∧
    (save_game_route ⟨[], [], [], [⟨5, 1, "h", "o", "v0", [], "i0"⟩], []⟩
        ⟨"i", ⟨some 5, "p", "s", "v", ["b"]⟩⟩ 1 9).1 = Except.ok 5 := by
  constructor
  · exact (save_unknown_id_untyped_error ⟨[], [], [], [], []⟩
      ⟨"i", ⟨some 5, "p", "s", "v", ["b"]⟩⟩ 1 9 5 rfl).1 (by decide)
  · exact (save_unknown_id_untyped_error ⟨[], [], [], [⟨5, 1, "h", "o", "v0", [], "i0"⟩], []⟩
      ⟨"i", ⟨some 5, "p", "s", "v", ["b"]⟩⟩ 1 9 5 rfl).2 ⟨5, 1, "h", "o", "v0", [], "i0"⟩ (by decide)

/-- Deleting the rows a predicate selects leaves nothing that predicate
selects. -/
theorem filter_not_filter {α : Type} (l : List α) (p : α → Bool) :
    (l.filter (fun a => !(p a))).filter p = [] := by
  induction l with
  | nil => rfl
  | cons a l ih =>
      by_cases h : p a <;> simp [List.filter_cons, h, ih]

/-- Filtering first can only shorten the rows another filter keeps. -/
theorem length_filter_filter_le {α : Type} (l : List α) (p q : α → Bool) :
    ((l.filter q).filter p).length ≤ (l.filter p).length :=
  List.Sublist.length_le (List.Sublist.filter p (List.filter_sublist l))

/-- C10: get-starting-story is total only under the precondition that a row
with the story id exists.  For an absent row the column reads raise the
untyped AttributeError before the NotFound branch, so NotFound is not
reached; when the row exists the operation fails NotFound exactly when the
narrative text or image is absent and otherwise returns the text, image and
id; the store is unchanged on every path. -/
theorem get_start_story_spec (db : DB) (sid : String) :
    (db.starting_stories.find? (fun r => r.id == sid) = none →
       (get_start_story db sid).1
         = Except.error (Err.attributeError "NoneType object has no attribute story") ∧
       ∀ st det, (get_start_story db sid).1 ≠ Except.error (Err.http st det)) ∧
    (∀ row, db.starting_stories.find? (fun r => r.id == sid) = some row →
       ((row.story = none ∨ row.image = none) →
          (get_start_story db sid).1
            = Except.error (Err.http 404 ("Story with ID " ++ sid ++ " not found"))) ∧
       (∀ s i, row.story = some s → row.image = some i →
          (get_start_story db sid).1 = Except.ok ⟨i, s, row.id⟩)) ∧
    (get_start_story db sid).2 = db := by
  refine ⟨?_, ?_, ?_⟩
  · intro h
    constructor
    · simp only [get_start_story, h]
    · intro st det hc
      simp only [get_start_story, h] at hc
      exact absurd hc (by simp)
  · intro row hrow
    constructor
    · intro habs
      rcases hs : row.story with _ | s
      · rcases hi : row.image with _ | i <;> simp only [get_start_story, hrow, hs, hi]
      · rcases hi : row.image with _ | i
        · simp only [get_start_story, hrow, hs, hi]
        · exfalso
          rcases habs with h | h
          · rw [hs] at h
            exact Option.noConfusion h
          · rw [hi] at h
            exact Option.noConfusion h
    · intro s i hs hi
      simp only [get_start_story, hrow, hs, hi]
  · rcases hfind : db.starting_stories.find? (fun r => r.id == sid) with _ | row
    · simp only [get_start_story, hfind]
    · rcases hs : row.story with _ | s <;> rcases hi : row.image with _ | i <;>
        simp only [get_start_story, hfind, hs, hi]

/-- Witness for the get-starting-story theorem at three concrete stores:
missing row, row with NULL story, complete row. -/
theorem get_start_story_spec_witness :
    (get_start_story ⟨[], [], [], [], []⟩ "S").1
      = Except.error (Err.attributeError "NoneType object has no attribute story") ∧
    (get_start_story ⟨[], [], [], [], [⟨"S", none, some "img"⟩]⟩ "S").1
      = Except.error (Err.http 404 ("Story with ID " ++ "S" ++ " not found")) ∧
    (get_start_story ⟨[], [], [], [], [⟨"S", some "txt", some "img"⟩]⟩ "S").1
      = Except.ok ⟨"img", "txt", "S"⟩ ∧
    (get_start_story ⟨[], [], [], [], [⟨"S", some "txt", some "img"⟩]⟩ "S").2
      = ⟨[], [], [], [], [⟨"S", some "txt", some "img"⟩]⟩ := by
  refine ⟨((get_start_story_spec ⟨[], [], [], [], []⟩ "S").1 (by decide)).1, ?_, ?_, ?_⟩
  · exact ((get_start_story_spec ⟨[], [], [], [], [⟨"S", none, some "img"⟩]⟩ "S").2.1
      ⟨"S", none, some "img"⟩ (by decide)).1 (Or.inl rfl)
  · exact ((get_start_story_spec ⟨[], [], [], [], [⟨"S", some "txt", some "img"⟩]⟩ "S").2.1
      ⟨"S", some "txt", some "img"⟩ (by decide)).2 "txt" "img" rfl rfl
  · exact (get_start_story_spec ⟨[], [], [], [], [⟨"S", some "txt", some "img"⟩]⟩ "S").2.2

/-- C8: a profile update whose user id matches no User row purges all
remaining AccessTokens of that id and then fails NotFound; when the id
exists, only the non-absent fields of the sparse update are applied to the
row, a present password being hashed before persisting, and the token table
is untouched. -/
theorem update_user_spec (db : DB) (uid : Nat) (nud : UserUpdate) :
    (db.users.find? (fun u => u.id == uid) = none →
       (update_user db uid nud).1 = Except.error (Err.http 404 "User not found") ∧
       (update_user db uid nud).2.access_tokens.filter (fun t => t.user_id == uid) = []) ∧
    (∀ u, db.users.find? (fun r => r.id == uid) = some u →
       (update_user db uid nud).1 = Except.ok (apply_user_update u nud) ∧
       (update_user db uid nud).2.users.find? (fun r => r.id == uid)
         = some (apply_user_update u nud) ∧
       (apply_user_update u nud).email = nud.email.getD u.email ∧
       (apply_user_update u nud).password = (nud.password.map hash_password).getD u.password ∧
       (apply_user_update u nud).first_name = nud.first_name.or u.first_name ∧
       (apply_user_update u nud).last_name = nud.last_name.or u.last_name ∧
       (apply_user_update u nud).id = u.id ∧
       (apply_user_update u nud).is_active = u.is_active ∧
       (update_user db uid nud).2.access_tokens = db.access_tokens) := by
  constructor
  · intro h
    refine ⟨by simp only [update_user, h], ?_⟩
    simp only [update_user, h, logout_user]
    exact filter_not_filter db.access_tokens (fun t => t.user_id == uid)
  · intro u hu
    refine ⟨by simp only [update_user, hu], ?_, rfl, rfl, rfl, rfl, rfl, rfl,
      by simp only [update_user, hu]⟩
    simp only [update_user, hu]
    rw [find?_map_of_pres]
    · rw [hu, Option.map_some']
      have hp := List.find?_some hu
      rw [if_pos hp]
    · intro a
      by_cases h : a.id == uid
      · rw [if_pos h]
        rfl
      · rw [if_neg h]

/-- Witness for the profile-update theorem: a store without user 9 (with a
leftover token for 9) and a store with user 9, updating password and first
name only. -/
theorem update_user_spec_witness :
    ((update_user ⟨[], [], [⟨"t", "e", 9⟩], [], []⟩ 9 ⟨none, some "new", some "Ann", none⟩).1
       = Except.error (Err.http 404 "User not found") ∧
     (update_user ⟨[], [], [⟨"t", "e", 9⟩], [], []⟩ 9
         ⟨none, some "new", some "Ann", none⟩).2.access_tokens.filter (fun t => t.user_id == 9)
       = []) ∧
    ((update_user ⟨[⟨9, "a@b.co", "old", true, none, some "L"⟩], [], [], [], []⟩ 9
        ⟨none, some "new", some "Ann", none⟩).1
       = Except.ok (apply_user_update ⟨9, "a@b.co", "old", true, none, some "L"⟩
           ⟨none, some "new", some "Ann", none⟩) ∧
     apply_user_update ⟨9, "a@b.co", "old", true, none, some "L"⟩
         ⟨none, some "new", some "Ann", none⟩
       = ⟨9, "a@b.co", hash_password "new", true, some "Ann", some "L"⟩) := by
  constructor
  · exact (update_user_spec ⟨[], [], [⟨"t", "e", 9⟩], [], []⟩ 9
      ⟨none, some "new", some "Ann", none⟩).1 (by decide)
  · refine ⟨((update_user_spec ⟨[⟨9, "a@b.co", "old", true, none, some "L"⟩], [], [], [], []⟩ 9
      ⟨none, some "new", some "Ann", none⟩).2 ⟨9, "a@b.co", "old", true, none, some "L"⟩
      (by decide)).1, by decide⟩

/-- C4: in the code as it stands every found email token is rejected as
Expired — the expiry condition of the source is a constant truthy string
literal, so no 60-minute age comparison happens and tokens of every age,
also younger than 60 minutes, take the expiry branch — and on that branch
all EmailTokens of the email are deleted; a success outcome is
unreachable. -/
theorem email_token_always_expired (db : DB) (token : String) (row : EmailTokenRow)
    (h : db.email_tokens.find? (fun t => t.token == token) = some row) :
    (validate_email_token db token).1 = Except.error (Err.http 401 "Token expired") ∧
    (validate_email_token db token).2.email_tokens.filter (fun t => t.email == row.email) = [] ∧
    ∀ r, (validate_email_token db token).1 ≠ Except.ok r := by
  have e1 : validate_email_token db token
      = (Except.error (Err.http 401 "Token expired"), delete_email_tokens db row.email) := by
    simp only [validate_email_token, h]
    rfl
  refine ⟨by rw [e1], ?_, ?_⟩
  · rw [e1]
    exact filter_not_filter db.email_tokens (fun t => t.email == row.email)
  · intro r hc
    rw [e1] at hc
    exact Except.noConfusion hc

/-- Witness for the always-expired theorem: a token row of age zero is
rejected as Expired and the EmailTokens of its email are purged. -/
theorem email_token_always_expired_witness :
    (validate_email_token ⟨[], [⟨"a@b.co", "h", "T0", 0⟩], [], [], []⟩ "T0").1
      = Except.error (Err.http 401 "Token expired") ∧
    (validate_email_token ⟨[], [⟨"a@b.co", "h", "T0", 0⟩], [], [], []⟩ "T0").2.email_tokens.filter
        (fun t => t.email == "a@b.co") = [] ∧
    ∀ r, (validate_email_token ⟨[], [⟨"a@b.co", "h", "T0", 0⟩], [], [], []⟩ "T0").1
      ≠ Except.ok r :=
  email_token_always_expired ⟨[], [⟨"a@b.co", "h", "T0", 0⟩], [], [], []⟩ "T0"
    ⟨"a@b.co", "h", "T0", 0⟩ (by decide)

/-- C5: evaluation of hard delete.  At a store without the requested user id
the operation raises the untyped AttributeError (reading the email attribute
of a None lookup result) instead of the typed NotFound of the claim; at a
store where the user exists the success path removes the User row, its
AccessTokens and the EmailTokens of its email, and a subsequent login with
that email fails NotFound. -/
theorem hard_delete_user_eval :
    (hard_delete_user ⟨[], [], [], [], []⟩ 7).1
      = Except.error (Err.attributeError "NoneType object has no attribute email") ∧
    (∀ det, (hard_delete_user ⟨[], [], [], [], []⟩ 7).1 ≠ Except.error (Err.http 404 det)) ∧
    (let db : DB := ⟨[⟨7, "a@b.co", hash_password "pw", true, none, none⟩],
                     [⟨"a@b.co", "h", "T0", 0⟩], [⟨"T1", "e", 7⟩], [], []⟩
     (hard_delete_user db 7).1 = Except.ok "User deleted successfully" ∧
     (hard_delete_user db 7).2.users = [] ∧
     (hard_delete_user db 7).2.access_tokens = [] ∧
     (hard_delete_user db 7).2.email_tokens = [] ∧
     (login_user (hard_delete_user db 7).2 ⟨"a@b.co", "pw"⟩ "T9").1
       = Except.error (Err.http 404 "User not found")) := by
  refine ⟨by decide, ?_, by decide⟩
  intro det hc
  have : (hard_delete_user ⟨[], [], [], [], []⟩ 7).1
      = Except.error (Err.attributeError "NoneType object has no attribute email") := by decide
  rw [this] at hc
  exact absurd hc (by simp)

/-- A registration that returns a token leaves an EmailToken row carrying
that token string in the store. -/
theorem create_email_token_member (db : DB) (user : UserCreate) (tok1 tok2 : String)
    (now : Nat) (t : String)
    (hreg : (create_email_token db user tok1 tok2 now).1 = Except.ok t) :
    ∃ row ∈ (create_email_token db user tok1 tok2 now).2.email_tokens, row.token = t := by
  cases h1 : validate_email user.email with
  | false =>
      simp [create_email_token, h1] at hreg
  | true =>
      cases h2 : check_existing_user db user.email with
      | true =>
          simp [create_email_token, h1, h2] at hreg
      | false =>
          cases h3 : email_token_collision db tok1 with
          | false =>
              have eq1 : create_email_token db user tok1 tok2 now
                  = (Except.ok tok1, { db with email_tokens :=
                      db.email_tokens ++ [⟨user.email, hash_password user.password, tok1, now⟩] }) := by
                simp [create_email_token, post_email_token, h1, h2, h3]
              rw [eq1] at hreg ⊢
              have ht := Except.ok.inj hreg
              subst ht
              exact ⟨⟨user.email, hash_password user.password, tok1, now⟩,
                List.mem_append_right _ (List.mem_singleton.mpr rfl), rfl⟩
          | true =>
              cases h4 : email_token_collision (delete_email_tokens db user.email) tok2 with
              | true =>
                  simp [create_email_token, post_email_token, h1, h2, h3, h4] at hreg
              | false =>
                  have eq1 : create_email_token db user tok1 tok2 now
                      = (Except.ok tok2, { delete_email_tokens db user.email with email_tokens :=
                          (delete_email_tokens db user.email).email_tokens
                            ++ [⟨user.email, hash_password user.password, tok2, now⟩] }) := by
                    simp [create_email_token, post_email_token, h1, h2, h3, h4]
                  rw [eq1] at hreg ⊢
                  have ht := Except.ok.inj hreg
                  subst ht
                  exact ⟨⟨user.email, hash_password user.password, tok2, now⟩,
                    List.mem_append_right _ (List.mem_singleton.mpr rfl), rfl⟩

/-- A token string that some stored EmailToken row carries is rejected as
Expired by the email-token validation. -/
theorem validate_found_expired (db : DB) (t : String)
    (h : ∃ row ∈ db.email_tokens, row.token = t) :
    (validate_email_token db t).1 = Except.error (Err.http 401 "Token expired") := by
  obtain ⟨row, hmem, htok⟩ := h
  have hsome : (db.email_tokens.find? (fun r => r.token == t)).isSome := by
    rw [List.find?_isSome]
    exact ⟨row, hmem, by simp [htok]⟩
  obtain ⟨r, hr⟩ := Option.isSome_iff_exists.mp hsome
  exact (email_token_always_expired db t r hr).1

/-- C2: evaluation of the register-confirm chain.  Whenever registration
succeeds and returns a token, confirming that token fails with Expired: the
placeholder expiry condition rejects every stored token, so no
email/password pair completes register, confirm, login — the chain of the
claim never reaches a confirmed user. -/
theorem register_confirm_always_expired
    (db : DB) (user : UserCreate) (tok1 tok2 t : String) (now : Nat)
    (uuids : List Nat) (atok : String)
    (hreg : (create_email_token db user tok1 tok2 now).1 = Except.ok t) :
    (create_user (create_email_token db user tok1 tok2 now).2 t uuids atok).1
      = Except.error (Err.http 401 "Token expired") := by
  have hm := create_email_token_member db user tok1 tok2 now t hreg
  have hv := validate_found_expired _ t hm
  unfold create_user
  rcases hval : validate_email_token (create_email_token db user tok1 tok2 now).2 t with ⟨e1, db1⟩
  rw [hval] at hv
  simp only at hv
  rw [hv]

/-- Witness for the register-confirm theorem: on an empty store the
registration of a valid address returns token T1 and confirming T1 fails
with Expired. -/
theorem register_confirm_always_expired_witness :
    (create_email_token ⟨[], [], [], [], []⟩ ⟨"a@b.co", "pw"⟩ "T1" "T2" 0).1
      = Except.ok "T1" ∧
    (create_user (create_email_token ⟨[], [], [], [], []⟩ ⟨"a@b.co", "pw"⟩ "T1" "T2" 0).2
        "T1" [1, 2, 3] "A1").1 = Except.error (Err.http 401 "Token expired") :=
  ⟨by decide, register_confirm_always_expired ⟨[], [], [], [], []⟩ ⟨"a@b.co", "pw"⟩
    "T1" "T2" "T1" 0 [1, 2, 3] "A1" (by decide)⟩

/-- C6 counterexample: at a store where user 7 holds one token, issuing a
new token produces two commits; the first committed state (the commit
inside logout_user) already shows user 7 with zero tokens even though the
subsequent insertion succeeds, so the deletion is not committed only after
the insertion. -/
theorem token_issuance_intermediate_commit :
    (create_access_token_commits ⟨[], [], [⟨"t1", "e", 7⟩], [], []⟩ 7 "t2").head?
      = some ⟨[], [], [], [], []⟩ ∧
    ((create_access_token_commits ⟨[], [], [⟨"t1", "e", 7⟩], [], []⟩ 7 "t2").head?.map
        (fun s => s.access_tokens.filter (fun t => t.user_id == 7))) = some [] ∧
    (create_access_token ⟨[], [], [⟨"t1", "e", 7⟩], [], []⟩ 7 "t2").2.access_tokens
      = [⟨"t2", "some unknown timestamp", 7⟩] := by decide

/-- C6 amended: the deletion of the prior AccessTokens and the insertion of
the new one are two separately committed steps with the deletion committed
first, so the commit trace of token issuance starts with a state holding
zero tokens for the user and ends with the state holding exactly the new
token. -/
theorem token_issuance_two_commits (db : DB) (uid : Nat) (tok : String) :
    (create_access_token_commits db uid tok).head? = some (logout_user db uid) ∧
    (logout_user db uid).access_tokens.filter (fun t => t.user_id == uid) = [] ∧
    (create_access_token db uid tok).2.access_tokens.filter (fun t => t.user_id == uid)
      = [⟨tok, "some unknown timestamp", uid⟩] ∧
    (create_access_token_commits db uid tok).getLast?
      = some (create_access_token db uid tok).2 := by
  refine ⟨rfl, ?_, ?_, rfl⟩
  · exact filter_not_filter db.access_tokens (fun t => t.user_id == uid)
  · have e1 : (create_access_token db uid tok).2.access_tokens
        = db.access_tokens.filter (fun t => !(t.user_id == uid))
            ++ [(⟨tok, "some unknown timestamp", uid⟩ : AccessTokenRow)] := rfl
    rw [e1, List.filter_append, filter_not_filter db.access_tokens (fun t => t.user_id == uid)]
    simp

/-- C7 counterexample: at a store already holding one EmailToken for the
address (token string T0), a second registration whose generated token T1
does not collide succeeds — and afterwards two live EmailTokens exist for
that email, refuting the exactly-one part of the claim. -/
theorem duplicate_registration_two_tokens :
    (create_email_token ⟨[], [⟨"a@b.co", "h0", "T0", 0⟩], [], [], []⟩
        ⟨"a@b.co", "pw"⟩ "T1" "T2" 5).1 = Except.ok "T1" ∧
    ((create_email_token ⟨[], [⟨"a@b.co", "h0", "T0", 0⟩], [], [], []⟩
        ⟨"a@b.co", "pw"⟩ "T1" "T2" 5).2.email_tokens.filter
        (fun t => t.email == "a@b.co")).length = 2 := by decide

/-- C7 amended: registration rejects a malformed email with InvalidInput and
an already registered email with AlreadyExists; otherwise it hashes the
password and inserts a new EmailToken, and on a duplicate-token collision it
rolls back, deletes all EmailTokens of the email and retries exactly once (a
second collision propagates the integrity error with no third attempt).
After a collision-free insert the email holds its previous EmailTokens plus
the new one — repeated registrations accumulate rows — and exactly one
EmailToken remains only on the collision-retry path. -/
theorem create_email_token_spec (db : DB) (user : UserCreate) (tok1 tok2 : String) (now : Nat) :
    (validate_email user.email = false →
       create_email_token db user tok1 tok2 now
         = (Except.error (Err.http 400 "Invalid email format"), db)) ∧
    (validate_email user.email = true → check_existing_user db user.email = true →
       create_email_token db user tok1 tok2 now
         = (Except.error (Err.http 400 "User with this email already exists"), db)) ∧
    (validate_email user.email = true → check_existing_user db user.email = false →
       email_token_collision db tok1 = false →
       (create_email_token db user tok1 tok2 now).1 = Except.ok tok1 ∧
       (create_email_token db user tok1 tok2 now).2.email_tokens
         = db.email_tokens ++ [⟨user.email, hash_password user.password, tok1, now⟩]) ∧
    (validate_email user.email = true → check_existing_user db user.email = false →
       email_token_collision db tok1 = true →
       email_token_collision (delete_email_tokens db user.email) tok2 = false →
       (create_email_token db user tok1 tok2 now).1 = Except.ok tok2 ∧
       (create_email_token db user tok1 tok2 now).2.email_tokens.filter
           (fun t => t.email == user.email)
         = [⟨user.email, hash_password user.password, tok2, now⟩]) ∧
    (validate_email user.email = true → check_existing_user db user.email = false →
       email_token_collision db tok1 = true →
       email_token_collision (delete_email_tokens db user.email) tok2 = true →
       (create_email_token db user tok1 tok2 now).1 = Except.error Err.integrityError) := by
  refine ⟨?_, ?_, ?_, ?_, ?_⟩
  · intro h1
    simp [create_email_token, h1]
  · intro h1 h2
    simp [create_email_token, h1, h2]
  · intro h1 h2 h3
    constructor
    · simp [create_email_token, post_email_token, h1, h2, h3]
    · simp [create_email_token, post_email_token, h1, h2, h3]
  · intro h1 h2 h3 h4
    have eq1 : create_email_token db user tok1 tok2 now
        = (Except.ok tok2, { delete_email_tokens db user.email with email_tokens :=
            (delete_email_tokens db user.email).email_tokens
              ++ [⟨user.email, hash_password user.password, tok2, now⟩] }) := by
      simp [create_email_token, post_email_token, h1, h2, h3, h4]
    refine ⟨by rw [eq1], ?_⟩
    rw [eq1]
    have e2 : ({ delete_email_tokens db user.email with email_tokens :=
        (delete_email_tokens db user.email).email_tokens
          ++ [(⟨user.email, hash_password user.password, tok2, now⟩ : EmailTokenRow)] } : DB).email_tokens
        = db.email_tokens.filter (fun t => !(t.email == user.email))
          ++ [(⟨user.email, hash_password user.password, tok2, now⟩ : EmailTokenRow)] := rfl
    rw [e2, List.filter_append,
      filter_not_filter db.email_tokens (fun t => t.email == user.email)]
    simp
  · intro h1 h2 h3 h4
    simp [create_email_token, post_email_token, h1, h2, h3, h4]

/-- Witness for the amended registration theorem: a fresh registration on an
empty store (no collision) and a registration whose first token collides
with a token of another address, exercising the retry path. -/
theorem create_email_token_spec_witness :
    ((create_email_token ⟨[], [], [], [], []⟩ ⟨"a@b.co", "pw"⟩ "T1" "T2" 0).1
       = Except.ok "T1" ∧
     (create_email_token ⟨[], [], [], [], []⟩ ⟨"a@b.co", "pw"⟩ "T1" "T2" 0).2.email_tokens
       = [] ++ [⟨"a@b.co", hash_password "pw", "T1", 0⟩]) ∧
    ((create_email_token ⟨[], [⟨"c@d.co", "h", "T1", 0⟩], [], [], []⟩
        ⟨"a@b.co", "pw"⟩ "T1" "T2" 0).1 = Except.ok "T2" ∧
     (create_email_token ⟨[], [⟨"c@d.co", "h", "T1", 0⟩], [], [], []⟩
        ⟨"a@b.co", "pw"⟩ "T1" "T2" 0).2.email_tokens.filter (fun t => t.email == "a@b.co")
       = [⟨"a@b.co", hash_password "pw", "T2", 0⟩]) := by
  constructor
  · exact (create_email_token_spec ⟨[], [], [], [], []⟩ ⟨"a@b.co", "pw"⟩ "T1" "T2" 0).2.2.1
      (by decide) (by decide) (by decide)
  · exact (create_email_token_spec ⟨[], [⟨"c@d.co", "h", "T1", 0⟩], [], [], []⟩
      ⟨"a@b.co", "pw"⟩ "T1" "T2" 0).2.2.2.1 (by decide) (by decide) (by decide) (by decide)

/-- Token issuance preserves the single-active-session invariant for every
user: after it, the issuing user holds exactly one token and the token lists
of other users only shrink. -/
theorem at_most_one_token_create (db : DB) (uid : Nat) (tok : String) (v : Nat)
    (h : at_most_one_token db v) : at_most_one_token (create_access_token db uid tok).2 v := by
  have e1 : (create_access_token db uid tok).2.access_tokens
      = db.access_tokens.filter (fun t => !(t.user_id == uid))
          ++ [(⟨tok, "some unknown timestamp", uid⟩ : AccessTokenRow)] := rfl
  unfold at_most_one_token at h ⊢
  rw [e1, List.filter_append]
  by_cases hv : v = uid
  · subst hv
    rw [filter_not_filter db.access_tokens (fun t => t.user_id == v)]
    simp
  · have hrow : ([(⟨tok, "some unknown timestamp", uid⟩ : AccessTokenRow)].filter
        (fun t => t.user_id == v)) = [] := by
      have huv : (uid == v) = false := beq_eq_false_iff_ne.mpr (fun hc => hv hc.symm)
      simp [List.filter_cons, huv]
    rw [hrow, List.append_nil]
    exact le_trans (length_filter_filter_le db.access_tokens _ _) h

/-- Logout preserves the single-active-session invariant for every user. -/
theorem at_most_one_token_logout (db : DB) (uid v : Nat) (h : at_most_one_token db v) :
    at_most_one_token (logout_user db uid) v :=
  le_trans (length_filter_filter_le db.access_tokens _ _) h

/-- Characterization of a successful login: the token of the request is
returned, the token table afterwards holds exactly the tokens of the other
users plus the freshly issued row, and the user row is findable by email
with the active flag set. -/
theorem login_user_ok (db : DB) (e pw tok : String) (u : UserRow)
    (hu : db.users.find? (fun r => r.email == e) = some u)
    (hpw : u.password = hash_password pw) :
    (login_user db ⟨e, pw⟩ tok).1 = Except.ok tok ∧
    (login_user db ⟨e, pw⟩ tok).2.access_tokens
      = db.access_tokens.filter (fun t => !(t.user_id == u.id))
          ++ [(⟨tok, "some unknown timestamp", u.id⟩ : AccessTokenRow)] ∧
    (login_user db ⟨e, pw⟩ tok).2.users.find? (fun r => r.email == e)
      = some { u with is_active := true } := by
  have hcp : checkpw pw u.password = true := by
    simp [checkpw, hpw]
  cases hact : u.is_active with
  | true =>
      have e1 : login_user db ⟨e, pw⟩ tok
          = (Except.ok tok, (create_access_token db u.id tok).2) := by
        simp [login_user, create_access_token, logout_user, hu, hcp, hact]
      have hueq : ({ u with is_active := true } : UserRow) = u := by
        rw [← hact]
      rw [e1, hueq]
      exact ⟨rfl, rfl, hu⟩
  | false =>
      have hmem := List.mem_of_find?_eq_some hu
      have hany : db.users.any (fun r => r.id == u.id) = true :=
        List.any_eq_true.mpr ⟨u, hmem, by simp⟩
      have e1 : login_user db ⟨e, pw⟩ tok
          = (Except.ok tok, (create_access_token (set_active db u.id true) u.id tok).2) := by
        simp [login_user, create_access_token, logout_user, activate_user, hu, hcp, hact, hany]
      rw [e1]
      refine ⟨rfl, rfl, ?_⟩
      have e2 : (create_access_token (set_active db u.id true) u.id tok).2.users
          = db.users.map (fun r => if r.id == u.id then { r with is_active := true } else r) := rfl
      rw [e2, find?_map_of_pres]
      · rw [hu, Option.map_some']
        rw [if_pos (by simp)]
      · intro a
        by_cases hA : a.id == u.id
        · rw [if_pos hA]
        · rw [if_neg hA]

/-- C3: token issuance first deletes every token of the user, so both
issuance and logout preserve the at-most-one-live-token invariant for every
user; and after a second login the token of the first login no longer
validates — validation fails Unauthorized.  The freshness of the first
generated token and the distinctness of the two are the TokenGenerator
contract of the spec (the public source stubs the generator). -/
theorem single_active_token
    (db0 : DB) (e pw t1 t2 : String) (u : UserRow)
    (hu : db0.users.find? (fun r => r.email == e) = some u)
    (hpw : u.password = hash_password pw)
    (hfresh : ∀ r ∈ db0.access_tokens, r.token ≠ t1)
    (hne : t1 ≠ t2) :
    (∀ (db : DB) (uid : Nat) (tok : String) (v : Nat),
        at_most_one_token db v → at_most_one_token (create_access_token db uid tok).2 v) ∧
    (∀ (db : DB) (uid v : Nat),
        at_most_one_token db v → at_most_one_token (logout_user db uid) v) ∧
    (login_user db0 ⟨e, pw⟩ t1).1 = Except.ok t1 ∧
    (login_user (login_user db0 ⟨e, pw⟩ t1).2 ⟨e, pw⟩ t2).1 = Except.ok t2 ∧
    validate_token (login_user (login_user db0 ⟨e, pw⟩ t1).2 ⟨e, pw⟩ t2).2 t1
      = Except.error (Err.http 401 "Invalid token") := by
  obtain ⟨h11, h12, h13⟩ := login_user_ok db0 e pw t1 u hu hpw
  obtain ⟨h21, h22, h23⟩ :=
    login_user_ok (login_user db0 ⟨e, pw⟩ t1).2 e pw t2 { u with is_active := true } h13 hpw
  refine ⟨at_most_one_token_create, at_most_one_token_logout, h11, h21, ?_⟩
  have hnone : (login_user (login_user db0 ⟨e, pw⟩ t1).2 ⟨e, pw⟩ t2).2.access_tokens.find?
      (fun r => r.token == t1) = none := by
    rw [h22]
    apply List.find?_eq_none.mpr
    intro r hr
    rcases List.mem_append.mp hr with hl | hr2
    · have hr3 := (List.mem_filter.mp hl).1
      rw [h12] at hr3
      rcases List.mem_append.mp hr3 with ha | hb
      · have hmem0 := (List.mem_filter.mp ha).1
        have hne1 := hfresh r hmem0
        simp [hne1]
      · have hcond := (List.mem_filter.mp hl).2
        have hreq : r = ⟨t1, "some unknown timestamp", u.id⟩ := List.mem_singleton.mp hb
        rw [hreq] at hcond
        simp at hcond
    · have hreq : r = ⟨t2, "some unknown timestamp", ({ u with is_active := true } : UserRow).id⟩ :=
        List.mem_singleton.mp hr2
      rw [hreq]
      simp
      exact fun hc => hne hc.symm
  simp [validate_token, hnone]

/-- Witness for the single-active-token theorem: user 1 logs in twice with
distinct generated tokens t1 and t2 on a store with no prior tokens; the
first token no longer validates afterwards. -/
theorem single_active_token_witness :
    (login_user ⟨[⟨1, "a@b.co", hash_password "pw", true, none, none⟩], [], [], [], []⟩
        ⟨"a@b.co", "pw"⟩ "t1").1 = Except.ok "t1" ∧
    (login_user (login_user ⟨[⟨1, "a@b.co", hash_password "pw", true, none, none⟩], [], [], [], []⟩
        ⟨"a@b.co", "pw"⟩ "t1").2 ⟨"a@b.co", "pw"⟩ "t2").1 = Except.ok "t2" ∧
    validate_token (login_user
        (login_user ⟨[⟨1, "a@b.co", hash_password "pw", true, none, none⟩], [], [], [], []⟩
          ⟨"a@b.co", "pw"⟩ "t1").2 ⟨"a@b.co", "pw"⟩ "t2").2 "t1"
      = Except.error (Err.http 401 "Invalid token") :=
  (single_active_token ⟨[⟨1, "a@b.co", hash_password "pw", true, none, none⟩], [], [], [], []⟩
    "a@b.co" "pw" "t1" "t2" ⟨1, "a@b.co", hash_password "pw", true, none, none⟩
    (by decide) rfl (by simp) (by decide)).2.2

end AdventureAI
